import Mathlib

/-
Verification of the Cesium3DTileStyle facade (Scene/Cesium3DTileStyle.js).

The embedding below follows the source file closely.  The external
collaborators Expression, ConditionsExpression, clone and the when.js
promise library are not part of the sources under verification; where an
operation depends on them they are modelled abstractly (constructors that
record their arguments, an uninterpreted compilation oracle, a synchronous
resolution step), each such definition carrying a doc comment saying so.
-/

namespace Cesium

/-- A defines mapping of the style document: identifier to expression string. -/
abbrev Defines := List (String × String)

/-- A JavaScript value handed to a style property setter or read from a field
of the style document.  Objects are abstracted to whether their conditions
field is defined (the only shape inspection getExpression performs) plus an
identity tag so distinct objects stay distinguishable. -/
inductive JSValue where
  | undef
  | boolean (b : Bool)
  | number (n : Int)
  | string (s : String)
  | object (hasConditions : Bool) (tag : Nat)
deriving DecidableEq

/-- Modelled from the spec: the result of the uniform coercion step.  The
Expression and ConditionsExpression constructors (files not under src/) are
uninterpreted: they record the arguments they were built from, faithful to
the spec description of construction-time parsing with an optional defines
mapping.  A custom object satisfying the StyleExpression capability is
stored unchanged. -/
inductive StoredExpr where
  | expr (source : String) (defines : Option Defines)
  | conditionsExpr (value : JSValue) (defines : Option Defines)
  | passthrough (value : JSValue)
deriving DecidableEq

/-- The style document: a JSON-like mapping from the recognized property
names to raw values, plus the optional defines mapping and the optional meta
table (property name to expression string). -/
structure StyleJson where
  defines : Option Defines := none
  show_ : JSValue := .undef
  color : JSValue := .undef
  pointSize : JSValue := .undef
  pointColor : JSValue := .undef
  pointOutlineColor : JSValue := .undef
  pointOutlineWidth : JSValue := .undef
  labelColor : JSValue := .undef
  labelOutlineColor : JSValue := .undef
  labelOutlineWidth : JSValue := .undef
  labelStyle : JSValue := .undef
  font : JSValue := .undef
  labelText : JSValue := .undef
  backgroundColor : JSValue := .undef
  backgroundPadding : JSValue := .undef
  backgroundEnabled : JSValue := .undef
  scaleByDistance : JSValue := .undef
  translucencyByDistance : JSValue := .undef
  distanceDisplayCondition : JSValue := .undef
  heightOffset : JSValue := .undef
  anchorLineEnabled : JSValue := .undef
  anchorLineColor : JSValue := .undef
  image : JSValue := .undef
  disableDepthTestDistance : JSValue := .undef
  origin : JSValue := .undef
  labelOrigin : JSValue := .undef
  meta : Option (List (String × String)) := none
deriving DecidableEq

/-- The value held in the meta slot: undefined initially, the table of
Expressions built by setup, or whatever raw value the meta setter stored. -/
inductive MetaVal where
  | undef
  | table (entries : List (String × StoredExpr))
  | raw (v : JSValue)
deriving DecidableEq

/-- The instance state of Cesium3DTileStyle, one field per assignment in the
constructor body, with the initial values the constructor gives them. -/
structure Cesium3DTileStyle where
  _style : Option StyleJson := none
  _ready : Bool := false
  _show : Option StoredExpr := none
  _color : Option StoredExpr := none
  _pointColor : Option StoredExpr := none
  _pointSize : Option StoredExpr := none
  _pointOutlineColor : Option StoredExpr := none
  _pointOutlineWidth : Option StoredExpr := none
  _labelColor : Option StoredExpr := none
  _labelOutlineColor : Option StoredExpr := none
  _labelOutlineWidth : Option StoredExpr := none
  _font : Option StoredExpr := none
  _labelStyle : Option StoredExpr := none
  _labelText : Option StoredExpr := none
  _backgroundColor : Option StoredExpr := none
  _backgroundPadding : Option StoredExpr := none
  _backgroundEnabled : Option StoredExpr := none
  _scaleByDistance : Option StoredExpr := none
  _translucencyByDistance : Option StoredExpr := none
  _distanceDisplayCondition : Option StoredExpr := none
  _heightOffset : Option StoredExpr := none
  _anchorLineEnabled : Option StoredExpr := none
  _anchorLineColor : Option StoredExpr := none
  _image : Option StoredExpr := none
  _disableDepthTestDistance : Option StoredExpr := none
  _origin : Option StoredExpr := none
  _labelOrigin : Option StoredExpr := none
  _meta : MetaVal := .undef
  _colorShaderFunction : Option String := none
  _showShaderFunction : Option String := none
  _pointSizeShaderFunction : Option String := none
  _colorShaderFunctionReady : Bool := false
  _showShaderFunctionReady : Bool := false
  _pointSizeShaderFunctionReady : Bool := false
deriving DecidableEq

/-- The DeveloperError thrown by the property getters of an unloaded style. -/
inductive DevError where
  | notReady
deriving DecidableEq

/-- The function getExpression of the source: undefined passes through,
booleans and numbers are wrapped as new Expression(String(value)) with no
defines argument, strings as new Expression(value, defines), objects with a
defined conditions field as new ConditionsExpression(value, defines), and
any other object is returned unchanged.  defines is read from
defaultValue(tileStyle._style, EMPTY_OBJECT).defines. -/
def getExpression (tileStyle : Cesium3DTileStyle) (value : JSValue) : Option StoredExpr :=
  let defines := (tileStyle._style.getD {}).defines
  match value with
  | .undef => none
  | .boolean b => some (.expr (if b then ("true") else ("false")) none)
  | .number n => some (.expr (toString n) none)
  | .string s => some (.expr s defines)
  | .object hasConditions tag =>
      if hasConditions then some (.conditionsExpr (.object hasConditions tag) defines)
      else some (.passthrough (.object hasConditions tag))

/-- The names of the stylable properties defined on the prototype. -/
inductive PropName where
  | show_ | color | pointColor | pointSize | pointOutlineColor | pointOutlineWidth
  | labelColor | labelOutlineColor | labelOutlineWidth | labelStyle | font | labelText
  | backgroundColor | backgroundPadding | backgroundEnabled | scaleByDistance
  | translucencyByDistance | distanceDisplayCondition | heightOffset
  | anchorLineEnabled | anchorLineColor | image | disableDepthTestDistance
  | origin | labelOrigin | meta
deriving DecidableEq

/-- A value returned by a property getter: every property except meta holds
an optional StoredExpr, meta holds a MetaVal. -/
inductive PropVal where
  | exprVal (e : Option StoredExpr)
  | metaVal (m : MetaVal)
deriving DecidableEq

/-- The property setters.  Each one assigns getExpression(this, value) to its
backing field; the show, color and pointSize setters additionally clear
their shader-function ready flag; the meta setter stores the value
unchanged.  None of the setters checks the ready flag. -/
def setProp (s : Cesium3DTileStyle) (p : PropName) (v : JSValue) : Cesium3DTileStyle :=
  match p with
  | .show_ => { s with _show := getExpression s v, _showShaderFunctionReady := false }
  | .color => { s with _color := getExpression s v, _colorShaderFunctionReady := false }
  | .pointSize => { s with _pointSize := getExpression s v, _pointSizeShaderFunctionReady := false }
  | .pointColor => { s with _pointColor := getExpression s v }
  | .pointOutlineColor => { s with _pointOutlineColor := getExpression s v }
  | .pointOutlineWidth => { s with _pointOutlineWidth := getExpression s v }
  | .labelColor => { s with _labelColor := getExpression s v }
  | .labelOutlineColor => { s with _labelOutlineColor := getExpression s v }
  | .labelOutlineWidth => { s with _labelOutlineWidth := getExpression s v }
  | .labelStyle => { s with _labelStyle := getExpression s v }
  | .font => { s with _font := getExpression s v }
  | .labelText => { s with _labelText := getExpression s v }
  | .backgroundColor => { s with _backgroundColor := getExpression s v }
  | .backgroundPadding => { s with _backgroundPadding := getExpression s v }
  | .backgroundEnabled => { s with _backgroundEnabled := getExpression s v }
  | .scaleByDistance => { s with _scaleByDistance := getExpression s v }
  | .translucencyByDistance => { s with _translucencyByDistance := getExpression s v }
  | .distanceDisplayCondition => { s with _distanceDisplayCondition := getExpression s v }
  | .heightOffset => { s with _heightOffset := getExpression s v }
  | .anchorLineEnabled => { s with _anchorLineEnabled := getExpression s v }
  | .anchorLineColor => { s with _anchorLineColor := getExpression s v }
  | .image => { s with _image := getExpression s v }
  | .disableDepthTestDistance => { s with _disableDepthTestDistance := getExpression s v }
  | .origin => { s with _origin := getExpression s v }
  | .labelOrigin => { s with _labelOrigin := getExpression s v }
  | .meta => { s with _meta := .raw v }

/-- The property getters.  Every getter first checks this._ready and throws
a DeveloperError when it is false, then returns the backing field. -/
def getProp (s : Cesium3DTileStyle) (p : PropName) : Except DevError PropVal :=
  if !s._ready then .error .notReady
  else .ok (match p with
    | .show_ => .exprVal s._show
    | .color => .exprVal s._color
    | .pointColor => .exprVal s._pointColor
    | .pointSize => .exprVal s._pointSize
    | .pointOutlineColor => .exprVal s._pointOutlineColor
    | .pointOutlineWidth => .exprVal s._pointOutlineWidth
    | .labelColor => .exprVal s._labelColor
    | .labelOutlineColor => .exprVal s._labelOutlineColor
    | .labelOutlineWidth => .exprVal s._labelOutlineWidth
    | .labelStyle => .exprVal s._labelStyle
    | .font => .exprVal s._font
    | .labelText => .exprVal s._labelText
    | .backgroundColor => .exprVal s._backgroundColor
    | .backgroundPadding => .exprVal s._backgroundPadding
    | .backgroundEnabled => .exprVal s._backgroundEnabled
    | .scaleByDistance => .exprVal s._scaleByDistance
    | .translucencyByDistance => .exprVal s._translucencyByDistance
    | .distanceDisplayCondition => .exprVal s._distanceDisplayCondition
    | .heightOffset => .exprVal s._heightOffset
    | .anchorLineEnabled => .exprVal s._anchorLineEnabled
    | .anchorLineColor => .exprVal s._anchorLineColor
    | .image => .exprVal s._image
    | .disableDepthTestDistance => .exprVal s._disableDepthTestDistance
    | .origin => .exprVal s._origin
    | .labelOrigin => .exprVal s._labelOrigin
    | .meta => .metaVal s._meta)

/-- The read-only style getter: throws the DeveloperError until the style is
loaded, then returns this._style. -/
def styleGet (s : Cesium3DTileStyle) : Except DevError (Option StyleJson) :=
  if !s._ready then .error .notReady else .ok s._style

set_option linter.unusedVariables false in
/-- Modelled from the spec: clone(object, true) from Core/clone, a file not
under src/.  Per the spec the document is held verbatim, deep-cloned; on the
pure document values of this embedding a deep copy is the value itself, and
the absence of sharing with the caller is modelled by the Heap below. -/
def clone (deep : Bool) (styleJson : Option StyleJson) : Option StyleJson := styleJson

/-- The function setup of the source: stores a deep clone of the document,
assigns every stylable property through its public setter in source order,
builds the meta table (one Expression per entry, sharing the document
defines; an empty table when the document has no meta), and finally flips
this._ready to true. -/
def setup (that : Cesium3DTileStyle) (styleJson0 : Option StyleJson) : Cesium3DTileStyle :=
  let that := { that with _style := clone true styleJson0 }
  let styleJson := styleJson0.getD {}
  let that := setProp that .show_ styleJson.show_
  let that := setProp that .color styleJson.color
  let that := setProp that .pointSize styleJson.pointSize
  let that := setProp that .pointColor styleJson.pointColor
  let that := setProp that .pointOutlineColor styleJson.pointOutlineColor
  let that := setProp that .pointOutlineWidth styleJson.pointOutlineWidth
  let that := setProp that .labelColor styleJson.labelColor
  let that := setProp that .labelOutlineColor styleJson.labelOutlineColor
  let that := setProp that .labelOutlineWidth styleJson.labelOutlineWidth
  let that := setProp that .labelStyle styleJson.labelStyle
  let that := setProp that .font styleJson.font
  let that := setProp that .labelText styleJson.labelText
  let that := setProp that .backgroundColor styleJson.backgroundColor
  let that := setProp that .backgroundPadding styleJson.backgroundPadding
  let that := setProp that .backgroundEnabled styleJson.backgroundEnabled
  let that := setProp that .scaleByDistance styleJson.scaleByDistance
  let that := setProp that .translucencyByDistance styleJson.translucencyByDistance
  let that := setProp that .distanceDisplayCondition styleJson.distanceDisplayCondition
  let that := setProp that .heightOffset styleJson.heightOffset
  let that := setProp that .anchorLineEnabled styleJson.anchorLineEnabled
  let that := setProp that .anchorLineColor styleJson.anchorLineColor
  let that := setProp that .image styleJson.image
  let that := setProp that .disableDepthTestDistance styleJson.disableDepthTestDistance
  let that := setProp that .origin styleJson.origin
  let that := setProp that .labelOrigin styleJson.labelOrigin
  let meta : MetaVal := .table (match styleJson.meta with
    | none => []
    | some metaJson => metaJson.map fun kv => (kv.1, StoredExpr.expr kv.2 styleJson.defines))
  { that with _meta := meta, _ready := true }

/-- The constructor argument: a url string or an inline document. -/
inductive StyleParam where
  | url (s : String)
  | inlineDoc (doc : Option StyleJson)

/-- The field initializations at the top of the constructor body. -/
def Cesium3DTileStyle.init : Cesium3DTileStyle := {}

/-- The constructor.  For a string argument loadJson(style) is started and
the promise is still pending when the constructor returns, so the state is
the initial one.  For any other argument the source builds
when.resolve(style).then(setup); modelled from the spec (when.js is not
under src/): resolving an already-settled promise runs the callback
synchronously, so setup has completed when the constructor returns. -/
def Cesium3DTileStyle.new (style : StyleParam) : Cesium3DTileStyle :=
  match style with
  | .url _ => Cesium3DTileStyle.init
  | .inlineDoc doc => setup Cesium3DTileStyle.init doc

/-- How the one-shot document-load future of a url-constructed style
settles. -/
inductive LoadOutcome where
  | resolved (doc : Option StyleJson)
  | rejected

/-- What the readyPromise of the style reports once the load settles. -/
inductive PromiseOutcome where
  | fulfilled
  | rejectedOutcome
deriving DecidableEq

/-- Settling of the pending load: on resolution the then-callback runs setup
and readyPromise fulfills with the style; on rejection no handler is
installed, the state is untouched and the rejection propagates through
readyPromise. -/
def settle (s : Cesium3DTileStyle) : LoadOutcome → Cesium3DTileStyle × PromiseOutcome
  | .resolved doc => (setup s doc, .fulfilled)
  | .rejected => (s, .rejectedOutcome)

/-- Modelled from the spec: a store of mutable style-document objects owned
by callers, indexed by address, so that the deep clone taken by setup can be
distinguished from aliasing the document the caller may later mutate. -/
def Heap := Nat → Option StyleJson

/-- Reads the document at an address. -/
def Heap.read (h : Heap) (a : Nat) : Option StyleJson := h a

/-- Mutates the document at an address in place. -/
def Heap.write (h : Heap) (a : Nat) (d : Option StyleJson) : Heap :=
  fun a2 => if a2 = a then d else h a2

/-- Constructs a style inline from the document currently stored at an
address of the heap. -/
def newFromHeap (h : Heap) (a : Nat) : Cesium3DTileStyle :=
  Cesium3DTileStyle.new (.inlineDoc (h.read a))

/-- Modelled from the spec: the getShaderFunction method of the
StyleExpression capability (Expression and ConditionsExpression are not
under src/), as an uninterpreted compilation oracle taking the expression,
the function name, the attribute-variable name fragment and the return type
name, and yielding the shader snippet, or none when not compilable. -/
structure ShaderCompiler where
  compile : StoredExpr → String → String → String → Option String

/-- The outcome of one shader-function accessor call: the returned value or
the thrown error, the state after the call (a thrown DeveloperError does not
roll back the field writes made before it), and whether the call invoked
getShaderFunction on the underlying expression. -/
structure ShaderCall where
  result : Except DevError (Option String)
  state : Cesium3DTileStyle
  compiled : Bool

/-- Cesium3DTileStyle.prototype.getColorShaderFunction: returns the cached
value while the ready flag is set; otherwise sets the flag, reads this.color
through the public getter (which throws while the style is unloaded, after
the flag write), compiles the expression when one is present with return
type vec4, caches and returns the result. -/
def getColorShaderFunction (c : ShaderCompiler) (functionName att : String)
    (s : Cesium3DTileStyle) : ShaderCall :=
  if s._colorShaderFunctionReady then
    { result := .ok s._colorShaderFunction, state := s, compiled := false }
  else
    let s := { s with _colorShaderFunctionReady := true }
    match getProp s .color with
    | .error e => { result := .error e, state := s, compiled := false }
    | .ok (.exprVal (some e)) =>
        let fn := c.compile e functionName att ("vec4")
        { result := .ok fn, state := { s with _colorShaderFunction := fn }, compiled := true }
    | .ok _ =>
        { result := .ok none, state := { s with _colorShaderFunction := none }, compiled := false }

/-- Cesium3DTileStyle.prototype.getShowShaderFunction, as above with the
show property and return type bool. -/
def getShowShaderFunction (c : ShaderCompiler) (functionName att : String)
    (s : Cesium3DTileStyle) : ShaderCall :=
  if s._showShaderFunctionReady then
    { result := .ok s._showShaderFunction, state := s, compiled := false }
  else
    let s := { s with _showShaderFunctionReady := true }
    match getProp s .show_ with
    | .error e => { result := .error e, state := s, compiled := false }
    | .ok (.exprVal (some e)) =>
        let fn := c.compile e functionName att ("bool")
        { result := .ok fn, state := { s with _showShaderFunction := fn }, compiled := true }
    | .ok _ =>
        { result := .ok none, state := { s with _showShaderFunction := none }, compiled := false }

/-- Cesium3DTileStyle.prototype.getPointSizeShaderFunction, as above with
the pointSize property and return type float. -/
def getPointSizeShaderFunction (c : ShaderCompiler) (functionName att : String)
    (s : Cesium3DTileStyle) : ShaderCall :=
  if s._pointSizeShaderFunctionReady then
    { result := .ok s._pointSizeShaderFunction, state := s, compiled := false }
  else
    let s := { s with _pointSizeShaderFunctionReady := true }
    match getProp s .pointSize with
    | .error e => { result := .error e, state := s, compiled := false }
    | .ok (.exprVal (some e)) =>
        let fn := c.compile e functionName att ("float")
        { result := .ok fn, state := { s with _pointSizeShaderFunction := fn }, compiled := true }
    | .ok _ =>
        { result := .ok none, state := { s with _pointSizeShaderFunction := none }, compiled := false }

/-- An operation invoked on a constructed style: a property assignment or a
shader-function request.  Property reads do not change the state. -/
inductive StyleOp where
  | set (p : PropName) (v : JSValue)
  | colorShader (functionName att : String)
  | showShader (functionName att : String)
  | pointSizeShader (functionName att : String)

/-- The state after one operation. -/
def applyOp (c : ShaderCompiler) (s : Cesium3DTileStyle) : StyleOp → Cesium3DTileStyle
  | .set p v => setProp s p v
  | .colorShader functionName att => (getColorShaderFunction c functionName att s).state
  | .showShader functionName att => (getShowShaderFunction c functionName att s).state
  | .pointSizeShader functionName att => (getPointSizeShaderFunction c functionName att s).state

/-- The state after a sequence of operations. -/
def applyOps (c : ShaderCompiler) (s : Cesium3DTileStyle) : List StyleOp → Cesium3DTileStyle
  | [] => s
  | op :: ops => applyOps c (applyOp c s op) ops

/-- A fixed compilation oracle, used to instantiate the theorems below on
concrete inputs. -/
def trivialCompiler : ShaderCompiler := ⟨fun _ _ _ _ => some ("src")⟩

/-- A concrete ready style whose three shader caches are populated. -/
def cachedStyle : Cesium3DTileStyle :=
  { _ready := true, _showShaderFunctionReady := true, _colorShaderFunctionReady := true,
    _pointSizeShaderFunctionReady := true, _showShaderFunction := some ("sh"),
    _colorShaderFunction := some ("co"), _pointSizeShaderFunction := some ("pt") }

/-- A concrete style built inline from a document with color and show set. -/
def readyStyle : Cesium3DTileStyle :=
  Cesium3DTileStyle.new (.inlineDoc (some { color := .string ("c"), show_ := .boolean true }))

/-- A concrete style built inline from an undefined document: ready, with
every stylable property unset. -/
def readyEmpty : Cesium3DTileStyle := Cesium3DTileStyle.new (.inlineDoc none)

/-- A concrete style built from a url, whose load has not settled. -/
def pendingStyle : Cesium3DTileStyle := Cesium3DTileStyle.new (.url ("style.json"))

/-- Reads the backing field of a stylable property, with no readiness check:
the state observation the theorems below use to talk about what a setter
stored. -/
def backingField (s : Cesium3DTileStyle) (p : PropName) : PropVal :=
  match p with
  | .show_ => .exprVal s._show
  | .color => .exprVal s._color
  | .pointColor => .exprVal s._pointColor
  | .pointSize => .exprVal s._pointSize
  | .pointOutlineColor => .exprVal s._pointOutlineColor
  | .pointOutlineWidth => .exprVal s._pointOutlineWidth
  | .labelColor => .exprVal s._labelColor
  | .labelOutlineColor => .exprVal s._labelOutlineColor
  | .labelOutlineWidth => .exprVal s._labelOutlineWidth
  | .labelStyle => .exprVal s._labelStyle
  | .font => .exprVal s._font
  | .labelText => .exprVal s._labelText
  | .backgroundColor => .exprVal s._backgroundColor
  | .backgroundPadding => .exprVal s._backgroundPadding
  | .backgroundEnabled => .exprVal s._backgroundEnabled
  | .scaleByDistance => .exprVal s._scaleByDistance
  | .translucencyByDistance => .exprVal s._translucencyByDistance
  | .distanceDisplayCondition => .exprVal s._distanceDisplayCondition
  | .heightOffset => .exprVal s._heightOffset
  | .anchorLineEnabled => .exprVal s._anchorLineEnabled
  | .anchorLineColor => .exprVal s._anchorLineColor
  | .image => .exprVal s._image
  | .disableDepthTestDistance => .exprVal s._disableDepthTestDistance
  | .origin => .exprVal s._origin
  | .labelOrigin => .exprVal s._labelOrigin
  | .meta => .metaVal s._meta

/-- C1, counterexample.  On a style constructed from a url the load has not
settled, ready is false, and yet assigning the color property succeeds with
its documented effect: the setters carry no readiness check, so the claim
that both getting and setting fail, and that no property access succeeds
before the load completes, is false on this input. -/
theorem c1_counterexample :
    pendingStyle._ready = false
    ∧ (setProp pendingStyle .color (.string ("x")))._color = some (.expr ("x") none)
    ∧ (setProp pendingStyle .meta (.boolean true))._meta = .raw (.boolean true) :=
  ⟨rfl, rfl, rfl⟩

/-- C1, amended: while ready is false every stylable property getter throws
the DeveloperError, but the setters perform no readiness check: a property
assignment always succeeds and stores the coerced value. -/
theorem c1_not_ready_access (s : Cesium3DTileStyle) (p : PropName) (v : JSValue)
    (h : s._ready = false) :
    getProp s p = .error .notReady
    ∧ (setProp s p v)._ready = false
    ∧ (setProp s .color v)._color = getExpression s v
    ∧ (setProp s .meta v)._meta = .raw v := by
  refine ⟨by simp [getProp, h], ?_, rfl, rfl⟩
  cases p <;> simpa [setProp] using h

/-- Closed instance of c1_not_ready_access on a url-constructed style. -/
theorem c1_not_ready_access_witness :
    pendingStyle._ready = false ∧ getProp pendingStyle .show_ = .error .notReady :=
  ⟨rfl, (c1_not_ready_access pendingStyle .show_ .undef rfl).1⟩

/-- C3, counterexample.  The meta setter is the one stylable property setter
that skips the uniform coercion: assigning the boolean true to meta stores
the raw boolean, not a trivial Expression built from its string form. -/
theorem c3_counterexample :
    (setProp readyEmpty .meta (.boolean true))._meta = .raw (.boolean true) := rfl

/-- C3, amended: for every stylable property setter other than meta, the
stored value is getExpression of the assigned value, and getExpression maps
undefined to undefined, booleans and numbers to a trivial Expression built
from the string form of the value with no defines, strings to an Expression
sharing the loaded document defines, objects with a defined conditions field
to a ConditionsExpression with the same defines, and any other object to
itself unchanged. -/
theorem c3_setter_coercion (t : Cesium3DTileStyle) (v : JSValue) (p : PropName)
    (b : Bool) (n : Int) (str : String) (tag : Nat) (hp : p ≠ PropName.meta) :
    backingField (setProp t p v) p = .exprVal (getExpression t v)
    ∧ getExpression t .undef = none
    ∧ getExpression t (.boolean b) = some (.expr (if b then ("true") else ("false")) none)
    ∧ getExpression t (.number n) = some (.expr (toString n) none)
    ∧ getExpression t (.string str) = some (.expr str (t._style.getD {}).defines)
    ∧ getExpression t (.object true tag)
        = some (.conditionsExpr (.object true tag) (t._style.getD {}).defines)
    ∧ getExpression t (.object false tag) = some (.passthrough (.object false tag)) := by
  refine ⟨?_, rfl, rfl, rfl, rfl, rfl, rfl⟩
  cases p <;> first
    | exact absurd rfl hp
    | simp [backingField, setProp]

/-- Closed instance of c3_setter_coercion on the color property. -/
theorem c3_setter_coercion_witness :
    PropName.color ≠ PropName.meta
    ∧ backingField (setProp readyEmpty .color (.number 2)) .color
        = .exprVal (some (.expr ("2") none)) := by
  refine ⟨by decide, ?_⟩
  exact (c3_setter_coercion readyEmpty (.number 2) .color true 0 ("") 0 (by decide)).1

/-- C5: a style constructed from an inline document is ready synchronously
when the constructor returns; one constructed from a url string is not ready
until the pending load resolves, after which setup completes and ready is
true. -/
theorem c5_readiness (u : String) (doc : Option StyleJson) :
    (Cesium3DTileStyle.new (.inlineDoc doc))._ready = true
    ∧ (Cesium3DTileStyle.new (.url u))._ready = false
    ∧ ((settle (Cesium3DTileStyle.new (.url u)) (.resolved doc)).1)._ready = true :=
  ⟨rfl, rfl, rfl⟩

/-- C6: the style getter of a style constructed from the document stored at
an address returns exactly the document content present at construction
time (the deep clone is structurally equal to the loaded document), and a
later in-place mutation of the caller object changes what the heap holds
but not what the getter returns; a style constructed after the mutation
sees the new content. -/
theorem c6_style_clone (h : Heap) (a : Nat) (d : Option StyleJson) :
    styleGet (newFromHeap h a) = .ok (h.read a)
    ∧ (h.write a d).read a = d
    ∧ styleGet (newFromHeap (h.write a d) a) = .ok d := by
  have hw : (h.write a d).read a = d := by simp [Heap.read, Heap.write]
  have h3 : styleGet (newFromHeap (h.write a d) a) = .ok ((h.write a d).read a) := rfl
  rw [hw] at h3
  exact ⟨rfl, hw, h3⟩

/-- C10: the meta setter stores the assigned value unchanged and changes no
other field of the style, in particular none of the three shader caches or
their ready flags; during setup the meta table is built by wrapping each
entry of the document meta as an Expression sharing the document defines,
and is the empty table when the document has no meta. -/
theorem c10_meta_raw (s s2 : Cesium3DTileStyle) (v : JSValue) (doc : StyleJson) :
    setProp s .meta v = { s with _meta := .raw v }
    ∧ (doc.meta = none → (setup s2 (some doc))._meta = .table [])
    ∧ (∀ m, doc.meta = some m →
        (setup s2 (some doc))._meta
          = .table (m.map fun kv => (kv.1, StoredExpr.expr kv.2 doc.defines))) := by
  have key : (setup s2 (some doc))._meta
      = .table (match doc.meta with
        | none => []
        | some metaJson => metaJson.map fun kv => (kv.1, StoredExpr.expr kv.2 doc.defines)) := rfl
  refine ⟨rfl, ?_, ?_⟩
  · intro hm
    exact key.trans (by rw [hm])
  · intro m hm
    exact key.trans (by rw [hm])

/-- Closed instance of c10_meta_raw on a one-entry meta table. -/
theorem c10_meta_raw_witness :
    (setup Cesium3DTileStyle.init
        (some { meta := some [(("k"), ("s1"))], defines := some [(("d"), ("e"))] }))._meta
      = .table [(("k"), StoredExpr.expr ("s1") (some [(("d"), ("e"))]))] :=
  (c10_meta_raw Cesium3DTileStyle.init Cesium3DTileStyle.init .undef
      { meta := some [(("k"), ("s1"))], defines := some [(("d"), ("e"))] }).2.2
    [(("k"), ("s1"))] rfl

/-- C2: reassigning color clears only the color shader cache.  With all
three caches populated, after a color reassignment the show and pointSize
accessors still return their cached value without recompiling, while the
color ready flag is cleared; symmetrically for reassigning show and
pointSize. -/
theorem c2_cache_independence (s : Cesium3DTileStyle) (v : JSValue) (c : ShaderCompiler)
    (functionName att : String)
    (hshow : s._showShaderFunctionReady = true)
    (hcolor : s._colorShaderFunctionReady = true)
    (hpoint : s._pointSizeShaderFunctionReady = true) :
    ((setProp s .color v)._colorShaderFunctionReady = false
      ∧ getShowShaderFunction c functionName att (setProp s .color v)
          = ⟨.ok s._showShaderFunction, setProp s .color v, false⟩
      ∧ getPointSizeShaderFunction c functionName att (setProp s .color v)
          = ⟨.ok s._pointSizeShaderFunction, setProp s .color v, false⟩)
    ∧ ((setProp s .show_ v)._showShaderFunctionReady = false
      ∧ getColorShaderFunction c functionName att (setProp s .show_ v)
          = ⟨.ok s._colorShaderFunction, setProp s .show_ v, false⟩
      ∧ getPointSizeShaderFunction c functionName att (setProp s .show_ v)
          = ⟨.ok s._pointSizeShaderFunction, setProp s .show_ v, false⟩)
    ∧ ((setProp s .pointSize v)._pointSizeShaderFunctionReady = false
      ∧ getColorShaderFunction c functionName att (setProp s .pointSize v)
          = ⟨.ok s._colorShaderFunction, setProp s .pointSize v, false⟩
      ∧ getShowShaderFunction c functionName att (setProp s .pointSize v)
          = ⟨.ok s._showShaderFunction, setProp s .pointSize v, false⟩) := by
  refine ⟨⟨rfl, ?_, ?_⟩, ⟨rfl, ?_, ?_⟩, ⟨rfl, ?_, ?_⟩⟩ <;>
    simp [setProp, getShowShaderFunction, getColorShaderFunction,
      getPointSizeShaderFunction, hshow, hcolor, hpoint]

/-- Closed instance of c2_cache_independence on a cached concrete style. -/
theorem c2_cache_independence_witness :
    cachedStyle._showShaderFunctionReady = true
    ∧ cachedStyle._colorShaderFunctionReady = true
    ∧ cachedStyle._pointSizeShaderFunctionReady = true
    ∧ getShowShaderFunction trivialCompiler ("f") ("a")
          (setProp cachedStyle .color (.string ("x")))
        = ⟨.ok cachedStyle._showShaderFunction,
           setProp cachedStyle .color (.string ("x")), false⟩ :=
  ⟨rfl, rfl, rfl,
    (c2_cache_independence cachedStyle (.string ("x")) trivialCompiler ("f") ("a")
        rfl rfl rfl).1.2.1⟩

/-- C4: each shader-function accessor memoizes.  On a ready style, after a
first call, a second call with any arguments and any oracle returns the
value the first call produced, leaves the state unchanged and does not
invoke getShaderFunction on the underlying expression. -/
theorem c4_memoization (s : Cesium3DTileStyle) (c d : ShaderCompiler)
    (functionName att functionName2 att2 : String) (h : s._ready = true) :
    getColorShaderFunction d functionName2 att2 (getColorShaderFunction c functionName att s).state
        = ⟨(getColorShaderFunction c functionName att s).result,
           (getColorShaderFunction c functionName att s).state, false⟩
    ∧ getShowShaderFunction d functionName2 att2 (getShowShaderFunction c functionName att s).state
        = ⟨(getShowShaderFunction c functionName att s).result,
           (getShowShaderFunction c functionName att s).state, false⟩
    ∧ getPointSizeShaderFunction d functionName2 att2
          (getPointSizeShaderFunction c functionName att s).state
        = ⟨(getPointSizeShaderFunction c functionName att s).result,
           (getPointSizeShaderFunction c functionName att s).state, false⟩ := by
  refine ⟨?_, ?_, ?_⟩
  · by_cases hf : s._colorShaderFunctionReady
    · simp [getColorShaderFunction, hf]
    · cases hc2 : s._color <;>
        simp [getColorShaderFunction, getProp, h, hf, hc2]
  · by_cases hf : s._showShaderFunctionReady
    · simp [getShowShaderFunction, hf]
    · cases hc2 : s._show <;>
        simp [getShowShaderFunction, getProp, h, hf, hc2]
  · by_cases hf : s._pointSizeShaderFunctionReady
    · simp [getPointSizeShaderFunction, hf]
    · cases hc2 : s._pointSize <;>
        simp [getPointSizeShaderFunction, getProp, h, hf, hc2]

/-- Closed instance of c4_memoization on a concrete ready style. -/
theorem c4_memoization_witness :
    readyStyle._ready = true
    ∧ getColorShaderFunction trivialCompiler ("g") ("b")
          (getColorShaderFunction trivialCompiler ("f") ("a") readyStyle).state
        = ⟨(getColorShaderFunction trivialCompiler ("f") ("a") readyStyle).result,
           (getColorShaderFunction trivialCompiler ("f") ("a") readyStyle).state, false⟩ :=
  ⟨rfl, (c4_memoization readyStyle trivialCompiler trivialCompiler
      ("f") ("a") ("g") ("b") rfl).1⟩

/-- The color shader accessor never changes the ready field of the style. -/
theorem getColorShaderFunction_ready (c : ShaderCompiler) (functionName att : String)
    (s : Cesium3DTileStyle) :
    (getColorShaderFunction c functionName att s).state._ready = s._ready := by
  by_cases hf : s._colorShaderFunctionReady
  · simp [getColorShaderFunction, hf]
  · cases hr : s._ready <;> cases hc2 : s._color <;>
      simp [getColorShaderFunction, getProp, hf, hr, hc2]

/-- The show shader accessor never changes the ready field of the style. -/
theorem getShowShaderFunction_ready (c : ShaderCompiler) (functionName att : String)
    (s : Cesium3DTileStyle) :
    (getShowShaderFunction c functionName att s).state._ready = s._ready := by
  by_cases hf : s._showShaderFunctionReady
  · simp [getShowShaderFunction, hf]
  · cases hr : s._ready <;> cases hc2 : s._show <;>
      simp [getShowShaderFunction, getProp, hf, hr, hc2]

/-- The pointSize shader accessor never changes the ready field. -/
theorem getPointSizeShaderFunction_ready (c : ShaderCompiler) (functionName att : String)
    (s : Cesium3DTileStyle) :
    (getPointSizeShaderFunction c functionName att s).state._ready = s._ready := by
  by_cases hf : s._pointSizeShaderFunctionReady
  · simp [getPointSizeShaderFunction, hf]
  · cases hr : s._ready <;> cases hc2 : s._pointSize <;>
      simp [getPointSizeShaderFunction, getProp, hf, hr, hc2]

/-- No single operation changes the ready field of the style. -/
theorem applyOp_ready (c : ShaderCompiler) (s : Cesium3DTileStyle) (op : StyleOp) :
    (applyOp c s op)._ready = s._ready := by
  cases op with
  | set p v => cases p <;> simp [applyOp, setProp]
  | colorShader functionName att => exact getColorShaderFunction_ready c functionName att s
  | showShader functionName att => exact getShowShaderFunction_ready c functionName att s
  | pointSizeShader functionName att => exact getPointSizeShaderFunction_ready c functionName att s

/-- No sequence of operations changes the ready field of the style. -/
theorem applyOps_ready (c : ShaderCompiler) (s : Cesium3DTileStyle) (ops : List StyleOp) :
    (applyOps c s ops)._ready = s._ready := by
  induction ops generalizing s with
  | nil => rfl
  | cons op ops ih => rw [applyOps, ih, applyOp_ready]

/-- C7: readiness is monotone and settles once.  No sequence of property
assignments and shader-function requests ever changes the ready flag in
either direction; ready becomes true exactly when the one-shot load future
resolves and setup completes; when the load rejects the state is untouched,
ready stays false forever, and the failure is surfaced through the
readyPromise outcome. -/
theorem c7_ready_monotone (c : ShaderCompiler) (s s2 : Cesium3DTileStyle)
    (ops : List StyleOp) (doc : Option StyleJson) :
    (applyOps c s ops)._ready = s._ready
    ∧ (settle s2 (.resolved doc)).1._ready = true
    ∧ (settle s2 .rejected).1._ready = s2._ready
    ∧ (settle s2 .rejected).2 = .rejectedOutcome :=
  ⟨applyOps_ready c s ops, rfl, rfl, rfl⟩

/-- C8: each shader accessor flips its cache ready flag before reading the
property through the throwing public getter.  Called on an unloaded style
with an untouched cache, the call throws the not-ready DeveloperError but
leaves the cache marked ready with the undefined value; every later call on
that state, with the ready field set either way, returns undefined without
compiling, until the corresponding property is reassigned, which clears the
flag again. -/
theorem c8_poisoned_cache (s : Cesium3DTileStyle) (c d : ShaderCompiler)
    (functionName att functionName2 att2 : String) (v : JSValue)
    (hr : s._ready = false)
    (hcf : s._colorShaderFunctionReady = false) (hcv : s._colorShaderFunction = none)
    (hsf : s._showShaderFunctionReady = false) (hsv : s._showShaderFunction = none)
    (hpf : s._pointSizeShaderFunctionReady = false) (hpv : s._pointSizeShaderFunction = none) :
    ((getColorShaderFunction c functionName att s).result = .error .notReady
      ∧ (getColorShaderFunction c functionName att s).state._colorShaderFunctionReady = true
      ∧ (getColorShaderFunction c functionName att s).state._colorShaderFunction = none
      ∧ (∀ b : Bool,
          getColorShaderFunction d functionName2 att2
              { (getColorShaderFunction c functionName att s).state with _ready := b }
            = ⟨.ok none,
               { (getColorShaderFunction c functionName att s).state with _ready := b }, false⟩)
      ∧ (setProp (getColorShaderFunction c functionName att s).state .color v
          )._colorShaderFunctionReady = false)
    ∧ ((getShowShaderFunction c functionName att s).result = .error .notReady
      ∧ (getShowShaderFunction c functionName att s).state._showShaderFunctionReady = true
      ∧ (getShowShaderFunction c functionName att s).state._showShaderFunction = none
      ∧ (∀ b : Bool,
          getShowShaderFunction d functionName2 att2
              { (getShowShaderFunction c functionName att s).state with _ready := b }
            = ⟨.ok none,
               { (getShowShaderFunction c functionName att s).state with _ready := b }, false⟩)
      ∧ (setProp (getShowShaderFunction c functionName att s).state .show_ v
          )._showShaderFunctionReady = false)
    ∧ ((getPointSizeShaderFunction c functionName att s).result = .error .notReady
      ∧ (getPointSizeShaderFunction c functionName att s).state._pointSizeShaderFunctionReady
          = true
      ∧ (getPointSizeShaderFunction c functionName att s).state._pointSizeShaderFunction = none
      ∧ (∀ b : Bool,
          getPointSizeShaderFunction d functionName2 att2
              { (getPointSizeShaderFunction c functionName att s).state with _ready := b }
            = ⟨.ok none,
               { (getPointSizeShaderFunction c functionName att s).state with _ready := b },
               false⟩)
      ∧ (setProp (getPointSizeShaderFunction c functionName att s).state .pointSize v
          )._pointSizeShaderFunctionReady = false) := by
  refine ⟨⟨?_, ?_, ?_, ?_, ?_⟩, ⟨?_, ?_, ?_, ?_, ?_⟩, ⟨?_, ?_, ?_, ?_, ?_⟩⟩ <;>
    first
      | intro b <;>
          simp [getColorShaderFunction, getShowShaderFunction, getPointSizeShaderFunction,
            getProp, setProp, hr, hcf, hcv, hsf, hsv, hpf, hpv]
      | simp [getColorShaderFunction, getShowShaderFunction, getPointSizeShaderFunction,
          getProp, setProp, hr, hcf, hcv, hsf, hsv, hpf, hpv]

/-- Closed instance of c8_poisoned_cache on a url-constructed style. -/
theorem c8_poisoned_cache_witness :
    pendingStyle._ready = false
    ∧ pendingStyle._colorShaderFunctionReady = false
    ∧ (getColorShaderFunction trivialCompiler ("f") ("a") pendingStyle).result
        = .error .notReady
    ∧ (getColorShaderFunction trivialCompiler ("f") ("a") pendingStyle
        ).state._colorShaderFunctionReady = true :=
  ⟨rfl, rfl,
    (c8_poisoned_cache pendingStyle trivialCompiler trivialCompiler
        ("f") ("a") ("g") ("b") .undef rfl rfl rfl rfl rfl rfl rfl).1.1,
    (c8_poisoned_cache pendingStyle trivialCompiler trivialCompiler
        ("f") ("a") ("g") ("b") .undef rfl rfl rfl rfl rfl rfl rfl).1.2.1⟩

/-- C9: on a ready style whose corresponding property is unset, each shader
accessor returns undefined without failing and without invoking any
compilation, marks the cache ready with that undefined value so later calls
return it unchanged, and a reassignment of the property clears the flag. -/
theorem c9_unset_property (s : Cesium3DTileStyle) (c d : ShaderCompiler)
    (functionName att functionName2 att2 : String) (v : JSValue)
    (hr : s._ready = true)
    (hc : s._color = none) (hcf : s._colorShaderFunctionReady = false)
    (hs : s._show = none) (hsf : s._showShaderFunctionReady = false)
    (hp : s._pointSize = none) (hpf : s._pointSizeShaderFunctionReady = false) :
    ((getColorShaderFunction c functionName att s).result = .ok none
      ∧ (getColorShaderFunction c functionName att s).compiled = false
      ∧ (getColorShaderFunction c functionName att s).state._colorShaderFunctionReady = true
      ∧ getColorShaderFunction d functionName2 att2
            (getColorShaderFunction c functionName att s).state
          = ⟨.ok none, (getColorShaderFunction c functionName att s).state, false⟩
      ∧ (setProp (getColorShaderFunction c functionName att s).state .color v
          )._colorShaderFunctionReady = false)
    ∧ ((getShowShaderFunction c functionName att s).result = .ok none
      ∧ (getShowShaderFunction c functionName att s).compiled = false
      ∧ (getShowShaderFunction c functionName att s).state._showShaderFunctionReady = true
      ∧ getShowShaderFunction d functionName2 att2
            (getShowShaderFunction c functionName att s).state
          = ⟨.ok none, (getShowShaderFunction c functionName att s).state, false⟩
      ∧ (setProp (getShowShaderFunction c functionName att s).state .show_ v
          )._showShaderFunctionReady = false)
    ∧ ((getPointSizeShaderFunction c functionName att s).result = .ok none
      ∧ (getPointSizeShaderFunction c functionName att s).compiled = false
      ∧ (getPointSizeShaderFunction c functionName att s).state._pointSizeShaderFunctionReady
          = true
      ∧ getPointSizeShaderFunction d functionName2 att2
            (getPointSizeShaderFunction c functionName att s).state
          = ⟨.ok none, (getPointSizeShaderFunction c functionName att s).state, false⟩
      ∧ (setProp (getPointSizeShaderFunction c functionName att s).state .pointSize v
          )._pointSizeShaderFunctionReady = false) := by
  refine ⟨⟨?_, ?_, ?_, ?_, ?_⟩, ⟨?_, ?_, ?_, ?_, ?_⟩, ⟨?_, ?_, ?_, ?_, ?_⟩⟩ <;>
    simp [getColorShaderFunction, getShowShaderFunction, getPointSizeShaderFunction,
      getProp, setProp, hr, hc, hcf, hs, hsf, hp, hpf]

/-- Closed instance of c9_unset_property on a ready style with no color
expression. -/
theorem c9_unset_property_witness :
    readyEmpty._ready = true
    ∧ readyEmpty._color = none
    ∧ (getColorShaderFunction trivialCompiler ("f") ("a") readyEmpty).result = .ok none
    ∧ (getColorShaderFunction trivialCompiler ("f") ("a") readyEmpty).compiled = false :=
  ⟨rfl, rfl,
    (c9_unset_property readyEmpty trivialCompiler trivialCompiler
        ("f") ("a") ("g") ("b") .undef rfl rfl rfl rfl rfl rfl rfl).1.1,
    (c9_unset_property readyEmpty trivialCompiler trivialCompiler
        ("f") ("a") ("g") ("b") .undef rfl rfl rfl rfl rfl rfl rfl).1.2.1⟩

end Cesium
